import Mathlib

/-!
# Verification of the MotionCam `RawBufferStreamer` pipeline

Shallow embedding of `libMotionCam/source/RawBufferStreamer.cpp`:
the RAW10/RAW12/RAW16 pixel codec, the three frame transforms
(`crop`, `cropAndCompress`, `cropAndBin`), the streamer configuration
setters, and an interleaving model of the `doProcess` / `doStream`
worker loops.

Conventions of the embedding:
* Byte buffers are `List Nat`; a load applies `% 256` (a C `uint8_t`
  array always stores values `< 256`, on which `% 256` is the identity).
* `uint16_t` stores apply `% 65536`; intermediate C `int` arithmetic on
  promoted values is exact `Nat` arithmetic (all values involved are far
  below `2^31`).
* The C++ source computes the crop amounts with `double` arithmetic
  (`lround(0.5 * (crop/100.0 * width))`); this is modelled exactly over
  `ℚ`, with `lround` as round-half-away-from-zero (here: nonnegative
  arguments, so floor of `q + 1/2`).
-/

namespace MotionCam

/-- Pixel storage formats.  `RawBufferStreamer.cpp` handles RAW10, RAW12 and
RAW16; the tag `UNSUPPORTED` stands for any other value of the enum.
Modelled from the spec: the pixel-format tag admits values outside
{RAW10, RAW12, RAW16} (the `UnsupportedFormat` error kind), the enum
declaration itself being in a header outside the provided sources. -/
inductive PixelFormat where
  | RAW10
  | RAW12
  | RAW16
  | UNSUPPORTED
deriving DecidableEq, Repr

/-- Compression tags used by the streamer. -/
inductive CompressionType where
  | UNCOMPRESSED
  | BITNZPACK_2
deriving DecidableEq, Repr

/-- `uint8_t` truncation. -/
def u8 (n : Nat) : Nat := n % 256

/-- `uint16_t` truncation. -/
def u16 (n : Nat) : Nat := n % 65536

/-- `RAW10(data, x, y, stride)`: read the 16-bit sample of pixel `(x,y)`
from a RAW10-packed buffer (4 pixels per 5 bytes: four MSB bytes, then one
byte holding the four 2-bit LSBs). -/
def RAW10read (data : Nat → Nat) (x y stride : Nat) : Nat :=
  let X := (x / 4) * 4
  let xoffset := y * stride + (10 * X) / 8
  let p := x - X
  let shift := 2 * p
  ((u8 (data (xoffset + p))) <<< 2) ||| (((u8 (data (xoffset + 4))) >>> shift) &&& 3)

/-- `RAW12(data, x, y, stride)`: read the 16-bit sample of pixel `(x,y)`
from a RAW12-packed buffer (2 pixels per 3 bytes: two MSB bytes, then one
byte holding the two 4-bit LSBs). -/
def RAW12read (data : Nat → Nat) (x y stride : Nat) : Nat :=
  let X := (x / 2) * 2
  let xoffset := y * stride + (12 * X) / 8
  let p := x - X
  let shift := 4 * p
  ((u8 (data (xoffset + p))) <<< 4) ||| (((u8 (data (xoffset + 2))) >>> shift) &&& 15)

/-- `RAW16(data, x, y, stride)`: little-endian 16-bit load of pixel `(x,y)`. -/
def RAW16read (data : Nat → Nat) (x y stride : Nat) : Nat :=
  let offset := y * stride + x * 2
  (u8 (data offset)) ||| ((u8 (data (offset + 1))) <<< 8)

/-- Byte-at-index view of a `List Nat` buffer (out-of-range reads give 0;
the C source never reads out of range on the inputs we consider). -/
def byteAt (l : List Nat) : Nat → Nat := fun i => l.getD i 0

/-- The uncompressed RAW10 packer of `cropAndBin_RAW10` (lines 345-390):
for `i = 0, 2, 4, …` below `row.length / 2` it emits the five bytes
`row[i]>>2, row[i+rowSize_2]>>2, row[i+1]>>2, row[i+rowSize_2+1]>>2` and
the LSB byte built from `row[i], row[i+1], row[i+2], row[i+3]`.
Group `g` corresponds to `i = 2*g`. -/
def pack10row (row : List Nat) : List Nat :=
  let r := byteAt row
  let rs2 := row.length / 2
  (List.range (rs2 / 2)).flatMap (fun g =>
    let i := 2 * g
    [ u8 ((r i) >>> 2),
      u8 ((r (i + rs2)) >>> 2),
      u8 ((r (i + 1)) >>> 2),
      u8 ((r (i + rs2 + 1)) >>> 2),
      ((r i) &&& 3) ||| (((r (i + 1)) &&& 3) <<< 2) |||
        (((r (i + 2)) &&& 3) <<< 4) ||| (((r (i + 3)) &&& 3) <<< 6) ])

/-- The uncompressed RAW12 packer of `cropAndBin_RAW12` / `cropAndBin_RAW16`
(lines 535-568): for each `i` below `row.length / 2` it emits the three
bytes `row[i]>>4, row[i+rowSize_2]>>4` and the LSB byte built from
`row[i]` and `row[i+rowSize_2]`. -/
def pack12row (row : List Nat) : List Nat :=
  let r := byteAt row
  let rs2 := row.length / 2
  (List.range rs2).flatMap (fun i =>
    [ u8 ((r i) >>> 4),
      u8 ((r (i + rs2)) >>> 4),
      ((r i) &&& 15) ||| (((r (i + rs2)) &&& 15) <<< 4) ])

/-- A RAW10 test row of width 8, stored as [even-half ‖ odd-half]:
even-column samples `[0,1,0,0]`, odd-column samples `[0,0,0,0]`.
All samples are 10-bit. -/
def c1row : List Nat := [0, 1, 0, 0, 0, 0, 0, 0]

/-- One captured frame (`RawImageBuffer`), with the fields the streamer
reads and writes.  `metadata` stands for the opaque side-band blob. -/
structure RawImageBuffer where
  data : List Nat
  validStart : Nat
  validEnd : Nat
  width : Nat
  height : Nat
  rowStride : Nat
  pixelFormat : PixelFormat
  compressionType : CompressionType
  isBinned : Bool
  isCompressed : Bool
  metadata : Nat
deriving DecidableEq

/-- The streamer's configuration members (`mRunning`, `mCropWidth`,
`mCropHeight`, `mBin`, `mEnableCompression`). -/
structure StreamerConfig where
  running : Bool
  cropWidth : Nat
  cropHeight : Nat
  bin : Bool
  enableCompression : Bool
deriving DecidableEq

/-- C `lround` applied to the exact nonnegative rational `a / b`: round
to nearest, halves away from zero, i.e. `⌊a/b + 1/2⌋ = (2a + b) / (2b)`
in integer division. -/
def lroundDiv (a b : Nat) : Nat := (2 * a + b) / (2 * b)

/-- The per-side horizontal crop in pixels:
`4 * (lround(0.5 * (cropWidth/100.0 * width)) / 4)` — a multiple of 4.
The C++ source computes the rounded quantity in `double`; it is modelled
as `lround` of the exact rational `cropWidth·width/200`. -/
def hCropPixels (cropWidth width : Nat) : Nat :=
  4 * (lroundDiv (cropWidth * width) 200 / 4)

/-- The per-side vertical crop in pixels:
`2 * (lround(0.5 * (cropHeight/100.0 * height)) / 2)` — a multiple of 2. -/
def vCropPixels (cropHeight height : Nat) : Nat :=
  2 * (lroundDiv (cropHeight * height) 200 / 2)

/-- The row-memmove loop of `crop` for RAW10/RAW12: row `r` of the output
is the `cstride` bytes starting at `(ystart + r) * stride + xstart` of the
input.  The source performs the copies in place with one `memmove` per
row, ascending; since `cstride ≤ stride` and each destination row ends at
or before the source offset of every later row, the in-place loop equals
this gather from the original bytes. -/
def cropRows (d : Nat → Nat) (stride cstride xstart ystart rows : Nat) : List Nat :=
  (List.range (cstride * rows)).map
    (fun k => d ((ystart + k / cstride) * stride + xstart + k % cstride))

/-- The RAW16 branch of `crop`: packs pixel pairs `(x, x+1)` of each kept
row into RAW12 triples (`p0>>4`, `p1>>4`, LSB byte). -/
def cropPackRAW16 (d : Nat → Nat) (stride hc w ys rows : Nat) : List Nat :=
  (List.range rows).flatMap (fun r =>
    (List.range ((w - 2 * hc) / 2)).flatMap (fun px =>
      let x := hc + 2 * px
      let y := ys + r
      let p0 := RAW16read d x y stride
      let p1 := RAW16read d (x + 1) y stride
      [u8 (p0 >>> 4), u8 (p1 >>> 4), (p0 &&& 15) ||| ((p1 &&& 15) <<< 4)]))

/-- `RawBufferStreamer::crop` (lines 913-1001).  Returns the updated
buffer and whether the data region was locked (the zero-crop early return
happens before `lock`).  Note the RAW12 branch's `xstart = 10*hc/8`,
copied verbatim from the source (line 956). -/
def crop (cfg : StreamerConfig) (b : RawImageBuffer) : RawImageBuffer × Bool :=
  if cfg.cropWidth = 0 ∧ cfg.cropHeight = 0 ∧ b.pixelFormat ≠ PixelFormat.RAW16 then
    (b, false)
  else
    let hc := hCropPixels cfg.cropWidth b.width
    let vc := vCropPixels cfg.cropHeight b.height
    let croppedWidth := b.width - 2 * hc
    let croppedHeight := b.height - 2 * vc
    let d := byteAt b.data
    let ystart := vc
    let yend := b.height - ystart
    match b.pixelFormat with
    | .RAW10 =>
        let croppedRowStride := 10 * croppedWidth / 8
        let xstart := 10 * hc / 8
        let newData := cropRows d b.rowStride croppedRowStride xstart ystart (yend - ystart)
        ({ b with
             data := newData
             width := croppedWidth
             height := croppedHeight
             rowStride := croppedRowStride
             isCompressed := false
             compressionType := .UNCOMPRESSED
             validStart := 0
             validEnd := croppedRowStride * croppedHeight }, true)
    | .RAW12 =>
        let croppedRowStride := 12 * croppedWidth / 8
        let xstart := 10 * hc / 8
        let newData := cropRows d b.rowStride croppedRowStride xstart ystart (yend - ystart)
        ({ b with
             data := newData
             width := croppedWidth
             height := croppedHeight
             rowStride := croppedRowStride
             isCompressed := false
             compressionType := .UNCOMPRESSED
             validStart := 0
             validEnd := croppedRowStride * croppedHeight }, true)
    | .RAW16 =>
        let croppedRowStride := 12 * croppedWidth / 8
        let newData := cropPackRAW16 d b.rowStride hc b.width ystart (yend - ystart)
        ({ b with
             data := newData
             pixelFormat := .RAW12
             width := croppedWidth
             height := croppedHeight
             rowStride := croppedRowStride
             isCompressed := false
             compressionType := .UNCOMPRESSED
             validStart := 0
             validEnd := croppedRowStride * croppedHeight }, true)
    | .UNSUPPORTED => (b, true)

/-- The read primitive selected by the pixel format (the three dispatch
branches of `cropAndCompress` / `cropAndBin`).  Never applied to
`UNSUPPORTED`. -/
def formatRead : PixelFormat → (Nat → Nat) → Nat → Nat → Nat → Nat
  | .RAW10 => RAW10read
  | .RAW12 => RAW12read
  | .RAW16 => RAW16read
  | .UNSUPPORTED => fun _ _ _ _ => 0

/-- One rearranged row of `cropAndCompress`: the loop writes
`row[X] = READ(x, y)` and `row[croppedWidth_2 + X] = READ(x+1, y)` for
`x = xstart + 2X`, i.e. the row is the even-column samples followed by
the odd-column samples. -/
def ccRow (read : Nat → Nat → Nat) (xstart cw2 y : Nat) : List Nat :=
  (List.range cw2).map (fun X => read (xstart + 2 * X) y) ++
    (List.range cw2).map (fun X => read (xstart + 2 * X + 1) y)

/-- The rows handed to the row codec by `cropAndCompress`, top to bottom
(`y` from `ystart` to `yend`). -/
def ccRows (read : Nat → Nat → Nat) (xstart cw2 ystart rows : Nat) : List (List Nat) :=
  (List.range rows).map (fun r => ccRow read xstart cw2 (ystart + r))

/-- `RawBufferStreamer::cropAndCompress` (lines 815-911), parametric in
the row codec `enc` (`bitnzpack16`, an external library function): each
rearranged row is encoded and the encodings concatenated in place from
offset 0. -/
def cropAndCompress (cfg : StreamerConfig) (enc : List Nat → List Nat)
    (b : RawImageBuffer) : RawImageBuffer :=
  let hc := hCropPixels cfg.cropWidth b.width
  let vc := vCropPixels cfg.cropHeight b.height
  let croppedWidth := b.width - 2 * hc
  let croppedHeight := b.height - 2 * vc
  if b.pixelFormat = PixelFormat.RAW10 ∨ b.pixelFormat = PixelFormat.RAW12 ∨
      b.pixelFormat = PixelFormat.RAW16 then
    let read := fun x y => formatRead b.pixelFormat (byteAt b.data) x y b.rowStride
    let rows := ccRows read hc (croppedWidth / 2) vc (b.height - vc - vc)
    let newData := (rows.map enc).flatten
    { b with
        data := newData
        pixelFormat := .RAW16
        rowStride := croppedWidth * 2
        width := croppedWidth
        height := croppedHeight
        isCompressed := true
        compressionType := .BITNZPACK_2
        validStart := 0
        validEnd := newData.length }
  else b

/-- One binned output sample, exactly as each unrolled block of
`cropAndBin_RAW10` / `_RAW12` / `_RAW16` computes it: left/top neighbor
index clamped to 0 (truncated `Nat` subtraction equals `max(0, ix-2)`),
right/bottom wrapped modulo width/height, weights 1-2-1 / 2-4-2 / 1-2-1
applied by shifts, every intermediate stored in a `uint16_t`, and the sum
shifted right by 4. -/
def binSample (read : Nat → Nat → Nat) (w h ix iy : Nat) : Nat :=
  let ixm2 := ix - 2
  let ixp2 := (ix + 2) % w
  let iym2 := iy - 2
  let iyp2 := (iy + 2) % h
  let p0 := u16 (read ixm2 iym2)
  let p1 := u16 ((read ix iym2) <<< 1)
  let p2 := u16 (read ixp2 iym2)
  let p3 := u16 ((read ixm2 iy) <<< 1)
  let p4 := u16 ((read ix iy) <<< 2)
  let p5 := u16 ((read ixp2 iy) <<< 1)
  let p6 := u16 (read ixm2 iyp2)
  let p7 := u16 ((read ix iyp2) <<< 1)
  let p8 := u16 (read ixp2 iyp2)
  u16 ((p0 + p1 + p2 + p3 + p4 + p5 + p6 + p7 + p8) >>> 4)

/-- The binned sample as the spec describes it.  Second definition,
following the spec's words for comparison with `binSample`: the 3×3
like-color weighted sum with weights [[1,2,1],[2,4,2],[1,2,1]], divisor
16, left/top clamped to 0, right/bottom wrapped modulo width/height. -/
def specBinSample (read : Nat → Nat → Nat) (w h ix iy : Nat) : Nat :=
  let ixm2 := ix - 2
  let ixp2 := (ix + 2) % w
  let iym2 := iy - 2
  let iyp2 := (iy + 2) % h
  (read ixm2 iym2 + 2 * read ix iym2 + read ixp2 iym2 +
    2 * read ixm2 iy + 4 * read ix iy + 2 * read ixp2 iy +
    read ixm2 iyp2 + 2 * read ix iyp2 + read ixp2 iyp2) / 16

/-- One half-resolution output row of the binning kernel for input row
`y`: positions `X < bw/2` hold the sample at `ix = xstart + 4X`
(`row[(x - xstart) >> 2] = out`), positions `bw/2 + X` the sample at
`ix = xstart + 4X + 1` (`row[((x - xstart) >> 2) + (binnedWidth >> 1)]`). -/
def binRow (read : Nat → Nat → Nat) (w h xstart bw y : Nat) : List Nat :=
  (List.range (bw / 2)).map (fun X => binSample read w h (xstart + 4 * X) y) ++
    (List.range (bw / 2)).map (fun X => binSample read w h (xstart + 4 * X + 1) y)

/-- The output bytes of `cropAndBin_RAW10/12/16`: per 4-row band starting
at `y = ystart + 4*band`, the two half-rows (`row0` at `y`, `row1` at
`y+1`) are either entropy-packed (`doCompress`) or packed with the
format's packer. -/
def cropAndBinData (read : Nat → Nat → Nat) (pack : List Nat → List Nat)
    (enc : List Nat → List Nat) (w h ystart yend xstart bw : Nat)
    (doCompress : Bool) : List Nat :=
  (List.range ((yend - ystart) / 4)).flatMap (fun band =>
    let y := ystart + 4 * band
    let r0 := binRow read w h xstart bw y
    let r1 := binRow read w h xstart bw (y + 1)
    if doCompress then enc r0 ++ enc r1 else pack r0 ++ pack r1)

/-- `RawBufferStreamer::cropAndBin` (lines 751-813), parametric in the
row codec `enc`.  The uncompressed branch keeps RAW10/RAW12 and repacks
RAW16 to RAW12; the `rowStride` of that branch is computed from the
original pixel format (the RAW16→RAW12 relabeling happens afterwards in
the source). -/
def cropAndBin (cfg : StreamerConfig) (enc : List Nat → List Nat)
    (b : RawImageBuffer) : RawImageBuffer :=
  let hc := hCropPixels cfg.cropWidth b.width
  let vc := vCropPixels cfg.cropHeight b.height
  let croppedWidth := b.width - 2 * hc
  let croppedHeight := b.height - 2 * vc
  if b.pixelFormat = PixelFormat.RAW10 ∨ b.pixelFormat = PixelFormat.RAW12 ∨
      b.pixelFormat = PixelFormat.RAW16 then
    let read := fun x y => formatRead b.pixelFormat (byteAt b.data) x y b.rowStride
    let pack := if b.pixelFormat = PixelFormat.RAW10 then pack10row else pack12row
    let out := cropAndBinData read pack enc b.width b.height vc (b.height - vc) hc
      (croppedWidth / 2) cfg.enableCompression
    if cfg.enableCompression then
      { b with
          data := out
          width := croppedWidth / 2
          height := croppedHeight / 2
          isBinned := true
          pixelFormat := .RAW16
          isCompressed := true
          compressionType := .BITNZPACK_2
          rowStride := 2 * (croppedWidth / 2)
          validStart := 0
          validEnd := out.length }
    else
      { b with
          data := out
          width := croppedWidth / 2
          height := croppedHeight / 2
          isBinned := true
          rowStride := if b.pixelFormat = PixelFormat.RAW10
            then 10 * (croppedWidth / 2) / 8 else 12 * (croppedWidth / 2) / 8
          isCompressed := false
          compressionType := .UNCOMPRESSED
          pixelFormat := if b.pixelFormat = PixelFormat.RAW16
            then .RAW12 else b.pixelFormat
          validStart := 0
          validEnd := out.length }
  else b

/-- `RawBufferStreamer::processBuffer` (lines 1003-1012): dispatch on
`mBin` and `mEnableCompression`. -/
def processBuffer (cfg : StreamerConfig) (enc : List Nat → List Nat)
    (b : RawImageBuffer) : RawImageBuffer :=
  if cfg.bin then cropAndBin cfg enc b
  else if cfg.enableCompression then cropAndCompress cfg enc b
  else (crop cfg b).1

/-- One iteration of the `doProcess` worker body after a successful
dequeue: transform the buffer, then enqueue it on the ready queue. -/
def doProcessStep (cfg : StreamerConfig) (enc : List Nat → List Nat)
    (ready : List RawImageBuffer) (b : RawImageBuffer) : List RawImageBuffer :=
  ready ++ [processBuffer cfg enc b]

/-- `RawBufferStreamer::setCropAmount` (lines 191-197): guarded by
`!mRunning`. -/
def setCropAmount (s : StreamerConfig) (w h : Nat) : StreamerConfig :=
  if s.running then s else { s with cropWidth := w, cropHeight := h }

/-- `RawBufferStreamer::setBin` (lines 199-201): unconditional
assignment, with no `mRunning` guard. -/
def setBin (s : StreamerConfig) (v : Bool) : StreamerConfig :=
  { s with bin := v }

/-! ## Interleaving model of the worker loops

`doProcess` (lines 1014-1028) and `doStream` (lines 1030-1082), with one
transform worker and one writer worker, modelled as a small-step
transition relation over the two queues, the `mRunning` flag, the frame
currently held by the transform worker, and the writer's control point.
Frames are identifiers; `transformed` counts completed `processBuffer`
calls, `written` counts `container->add` calls (`mWrittenFrames`). -/

/-- The writer thread's control point in `doStream`: the main
`while(mRunning)` loop, the post-loop drain of `mReadyBuffers`, the drain
of `mUnprocessedBuffers`, and the point after `container->commit()`. -/
inductive WriterPhase where
  | main
  | drainReady
  | drainUnproc
  | committed
deriving DecidableEq

/-- Global state of the two-queue pipeline. -/
structure PipeState where
  unproc : List Nat
  ready : List Nat
  running : Bool
  workerHeld : Option Nat
  transformed : Nat
  written : Nat
  phase : WriterPhase
deriving DecidableEq

/-- One scheduler step of the pipeline. -/
inductive PipeStep : PipeState → PipeState → Prop where
  /-- The transform worker passes the `while(mRunning)` test and dequeues
  a frame from `mUnprocessedBuffers`. -/
  | workerTake (s : PipeState) (f : Nat) (r : List Nat) :
      s.running = true → s.unproc = f :: r → s.workerHeld = none →
      PipeStep s { s with unproc := r, workerHeld := some f }
  /-- The transform worker finishes `processBuffer` and enqueues the
  frame on `mReadyBuffers`. -/
  | workerFinish (s : PipeState) (f : Nat) :
      s.workerHeld = some f →
      PipeStep s { s with workerHeld := none, transformed := s.transformed + 1,
                          ready := s.ready ++ [f] }
  /-- `stop()` clears `mRunning`. -/
  | stopFlag (s : PipeState) :
      PipeStep s { s with running := false }
  /-- The writer, inside its main loop, dequeues a ready frame and writes
  it (`container->add`; `mWrittenFrames++`). -/
  | writerWrite (s : PipeState) (f : Nat) (r : List Nat) :
      s.phase = WriterPhase.main → s.running = true → s.ready = f :: r →
      PipeStep s { s with ready := r, written := s.written + 1 }
  /-- The writer observes `mRunning == false` and leaves the main loop. -/
  | writerExitMain (s : PipeState) :
      s.phase = WriterPhase.main → s.running = false →
      PipeStep s { s with phase := WriterPhase.drainReady }
  /-- Drain loop on `mReadyBuffers`: one successful `try_dequeue`. -/
  | writerDrainReady (s : PipeState) (f : Nat) (r : List Nat) :
      s.phase = WriterPhase.drainReady → s.ready = f :: r →
      PipeStep s { s with ready := r, written := s.written + 1 }
  /-- `try_dequeue` on the empty ready queue fails; move on to the
  unprocessed queue. -/
  | writerReadyDone (s : PipeState) :
      s.phase = WriterPhase.drainReady → s.ready = [] →
      PipeStep s { s with phase := WriterPhase.drainUnproc }
  /-- Drain loop on `mUnprocessedBuffers`: the writer runs
  `processBuffer` inline and writes the frame. -/
  | writerDrainUnproc (s : PipeState) (f : Nat) (r : List Nat) :
      s.phase = WriterPhase.drainUnproc → s.unproc = f :: r →
      PipeStep s { s with unproc := r, transformed := s.transformed + 1,
                          written := s.written + 1 }
  /-- `try_dequeue` on the empty unprocessed queue fails;
  `container->commit()` runs and the writer thread finishes. -/
  | writerCommit (s : PipeState) :
      s.phase = WriterPhase.drainUnproc → s.unproc = [] →
      PipeStep s { s with phase := WriterPhase.committed }

/-- The pipeline state after `start()` with the producer having submitted
the given frames. -/
def initPipe (frames : List Nat) : PipeState :=
  { unproc := frames, ready := [], running := true, workerHeld := none,
    transformed := 0, written := 0, phase := WriterPhase.main }

/-! ## Test fixtures -/

/-- A RAW12 image, 40×2, stride 60: every sample 0 except pixel (4,0),
which is 4095 (bytes 6 and 8 of row 0 hold its MSB and LSB nibble). -/
def c2data : List Nat :=
  (List.range 120).map (fun i => if i = 6 then 255 else if i = 8 then 15 else 0)

/-- Streamer configuration with `cropWidth = 20`, `cropHeight = 0`
(so the per-side horizontal crop on a width-40 image is 4 pixels). -/
def c2cfg : StreamerConfig :=
  { running := true, cropWidth := 20, cropHeight := 0, bin := false,
    enableCompression := false }

/-- The 40×2 RAW12 buffer holding `c2data`. -/
def c2buf : RawImageBuffer :=
  { data := c2data, validStart := 0, validEnd := 120, width := 40, height := 2,
    rowStride := 60, pixelFormat := .RAW12, compressionType := .UNCOMPRESSED,
    isBinned := false, isCompressed := false, metadata := 0 }

/-- A RAW16 image, 8×8, stride 16, every sample 32768 (`0x8000`,
little-endian bytes `0x00 0x80`). -/
def c3data : List Nat :=
  (List.range 128).map (fun i => if i % 2 = 1 then 128 else 0)

/-- RAW16 reads of `c3data` (stride 16): constant 32768. -/
def c3read : Nat → Nat → Nat := fun x y => RAW16read (byteAt c3data) x y 16

/-! ## Helper lemmas -/

/-- The RAW10 read primitive always returns a 10-bit value. -/
theorem raw10read_lt (d : Nat → Nat) (x y s : Nat) : RAW10read d x y s < 16384 := by
  have h1 : (u8 (d (y * s + 10 * (x / 4 * 4) / 8 + (x - x / 4 * 4)))) <<< 2 < 2 ^ 14 := by
    have := Nat.mod_lt (d (y * s + 10 * (x / 4 * 4) / 8 + (x - x / 4 * 4))) (y := 256)
      (by norm_num)
    simp only [u8, Nat.shiftLeft_eq]
    omega
  have h2 : ((u8 (d (y * s + 10 * (x / 4 * 4) / 8 + 4))) >>> (2 * (x - x / 4 * 4))) &&& 3
      < 2 ^ 14 := by
    have := Nat.and_lt_two_pow
      ((u8 (d (y * s + 10 * (x / 4 * 4) / 8 + 4))) >>> (2 * (x - x / 4 * 4)))
      (show 3 < 2 ^ 2 by norm_num)
    have h22 : (2 : Nat) ^ 2 ≤ 2 ^ 14 := by norm_num
    omega
  simpa [RAW10read] using Nat.or_lt_two_pow h1 h2

/-- The RAW12 read primitive always returns a 12-bit value. -/
theorem raw12read_lt (d : Nat → Nat) (x y s : Nat) : RAW12read d x y s < 16384 := by
  have h1 : (u8 (d (y * s + 12 * (x / 2 * 2) / 8 + (x - x / 2 * 2)))) <<< 4 < 2 ^ 14 := by
    have := Nat.mod_lt (d (y * s + 12 * (x / 2 * 2) / 8 + (x - x / 2 * 2))) (y := 256)
      (by norm_num)
    simp only [u8, Nat.shiftLeft_eq]
    omega
  have h2 : ((u8 (d (y * s + 12 * (x / 2 * 2) / 8 + 2))) >>> (4 * (x - x / 2 * 2))) &&& 15
      < 2 ^ 14 := by
    have := Nat.and_lt_two_pow
      ((u8 (d (y * s + 12 * (x / 2 * 2) / 8 + 2))) >>> (4 * (x - x / 2 * 2)))
      (show 15 < 2 ^ 4 by norm_num)
    have h22 : (2 : Nat) ^ 4 ≤ 2 ^ 14 := by norm_num
    omega
  simpa [RAW12read] using Nat.or_lt_two_pow h1 h2

/-- The per-side horizontal crop is a multiple of 4. -/
theorem hCropPixels_mod_four (cw w : Nat) : hCropPixels cw w % 4 = 0 := by
  simp [hCropPixels, Nat.mul_mod_right]

/-! ## Claims -/

/-- C1: the round-trip `read(pack(row), x, y, stride) == row[x]` fails for
RAW10.  For the width-8 row `c1row = [0,1,0,0 ‖ 0,0,0,0]` (10-bit
samples, `[even ‖ odd]` halves), the uncompressed RAW10 packer of
`cropAndBin_RAW10` followed by the RAW10 read primitive returns 1 at
pixel `x = 1` where the odd-half sample `row[4] = 0`, and 0 at pixel
`x = 2` where the even-half sample `row[1] = 1`: the packer takes the
MSB bytes from `[even ‖ odd]` positions but the four 2-bit LSBs from
sequential positions `i..i+3`. -/
theorem c1_raw10_pack_roundtrip_fails :
    (RAW10read (byteAt (pack10row c1row)) 1 0 10 = 1 ∧ c1row.getD 4 0 = 0) ∧
    (RAW10read (byteAt (pack10row c1row)) 2 0 10 = 0 ∧ c1row.getD 1 0 = 1) := by
  decide

/-- C2: the RAW12 branch of `crop` does not map cropped pixel `(0,0)` to
original pixel `(horizontalCrop, verticalCrop)`.  With `cropWidth = 20`
on a 40×2 RAW12 buffer the per-side crop is 4 pixels; the claim requires
cropped `(0,0)` to equal original `(4,0) = 4095`, but the source rows
are moved from byte offset `10*horizontalCrop/8 = 5` instead of
`12*horizontalCrop/8 = 6`, so the cropped `(0,0)` reads 0. -/
theorem c2_raw12_crop_wrong_offset :
    RAW12read (byteAt (crop c2cfg c2buf).1.data) 0 0 (crop c2cfg c2buf).1.rowStride = 0 ∧
    RAW12read (byteAt c2buf.data) (hCropPixels c2cfg.cropWidth c2buf.width)
      (vCropPixels c2cfg.cropHeight c2buf.height) c2buf.rowStride = 4095 := by
  decide

/-- C3 counterexample: a binned RAW16 sample is not the 3×3 weighted sum
divided by 16.  On the constant-32768 8×8 RAW16 image the kernel yields
8192 (the `uint16_t` intermediates truncate `32768 << 1` and
`32768 << 2` to 0) while the weighted sum over the like-color
neighborhood divided by 16 is 32768. -/
theorem c3_raw16_weighted_sum_fails :
    binSample c3read 8 8 2 2 ≠ specBinSample c3read 8 8 2 2 := by
  decide

/-- C3 (amended): a binned output sample equals the 3×3 like-color
weighted sum (weights 1-2-1/2-4-2/1-2-1, left/top clamped, right/bottom
wrapped) divided by 16 whenever every sample of the neighborhood is
below `2^14` — which RAW10 and RAW12 reads always satisfy; RAW16 samples
of 14 bits or more overflow the `uint16_t` intermediates. -/
theorem c3_bin_weighted_sum (read : Nat → Nat → Nat) (w h ix iy : Nat)
    (hb : ∀ a b, read a b < 16384) :
    binSample read w h ix iy = specBinSample read w h ix iy ∧
    (∀ d x y s, RAW10read d x y s < 16384) ∧
    (∀ d x y s, RAW12read d x y s < 16384) := by
  refine ⟨?_, raw10read_lt, raw12read_lt⟩
  have h0 := hb (ix - 2) (iy - 2)
  have h1 := hb ix (iy - 2)
  have h2 := hb ((ix + 2) % w) (iy - 2)
  have h3 := hb (ix - 2) iy
  have h4 := hb ix iy
  have h5 := hb ((ix + 2) % w) iy
  have h6 := hb (ix - 2) ((iy + 2) % h)
  have h7 := hb ix ((iy + 2) % h)
  have h8 := hb ((ix + 2) % w) ((iy + 2) % h)
  simp only [binSample, specBinSample, u16, Nat.shiftLeft_eq, Nat.shiftRight_eq_div_pow]
  norm_num
  omega

/-- C3 witness: the amended statement at the constant-5 image. -/
theorem c3_bin_weighted_sum_witness :
    (∀ a b : Nat, (fun _ _ => 5) a b < 16384) ∧
    (binSample (fun _ _ => 5) 8 8 2 2 = specBinSample (fun _ _ => 5) 8 8 2 2 ∧
      (∀ d x y s, RAW10read d x y s < 16384) ∧
      (∀ d x y s, RAW12read d x y s < 16384)) :=
  ⟨fun _ _ => by norm_num,
    c3_bin_weighted_sum (fun _ _ => 5) 8 8 2 2 (fun _ _ => by norm_num)⟩

/-- C4: for every supported buffer, `cropAndCompress` crops
symmetrically with a per-side horizontal crop that is even (a step of 2
pixels; the source aligns it to 4), hands the `[even ‖ odd]`-rearranged
rows (`ccRows`) to the row codec, and sets `pixelFormat = RAW16`,
`compressionType = BITNZPACK_2`, `isCompressed = true`,
`rowStride = 2·width`, the cropped dimensions, and `validRange`
spanning exactly the total encoded length. -/
theorem c4_cropAndCompress_fields (cfg : StreamerConfig) (enc : List Nat → List Nat)
    (b : RawImageBuffer)
    (hf : b.pixelFormat = PixelFormat.RAW10 ∨ b.pixelFormat = PixelFormat.RAW12 ∨
      b.pixelFormat = PixelFormat.RAW16) :
    hCropPixels cfg.cropWidth b.width % 2 = 0 ∧
    (cropAndCompress cfg enc b).pixelFormat = PixelFormat.RAW16 ∧
    (cropAndCompress cfg enc b).compressionType = CompressionType.BITNZPACK_2 ∧
    (cropAndCompress cfg enc b).isCompressed = true ∧
    (cropAndCompress cfg enc b).width = b.width - 2 * hCropPixels cfg.cropWidth b.width ∧
    (cropAndCompress cfg enc b).height = b.height - 2 * vCropPixels cfg.cropHeight b.height ∧
    (cropAndCompress cfg enc b).rowStride = 2 * (cropAndCompress cfg enc b).width ∧
    (cropAndCompress cfg enc b).validStart = 0 ∧
    (cropAndCompress cfg enc b).validEnd =
      ((ccRows (fun x y => formatRead b.pixelFormat (byteAt b.data) x y b.rowStride)
          (hCropPixels cfg.cropWidth b.width)
          ((b.width - 2 * hCropPixels cfg.cropWidth b.width) / 2)
          (vCropPixels cfg.cropHeight b.height)
          (b.height - vCropPixels cfg.cropHeight b.height -
            vCropPixels cfg.cropHeight b.height)).map (fun r => (enc r).length)).sum := by
  have h2 : hCropPixels cfg.cropWidth b.width % 2 = 0 := by
    have := hCropPixels_mod_four cfg.cropWidth b.width
    omega
  refine ⟨h2, ?_⟩
  simp [cropAndCompress, hf, Nat.mul_comm, List.map_map, Function.comp_def]

/-- C4 witness: a concrete RAW12 buffer with the identity row codec. -/
theorem c4_cropAndCompress_fields_witness :
    (c2buf.pixelFormat = PixelFormat.RAW10 ∨ c2buf.pixelFormat = PixelFormat.RAW12 ∨
      c2buf.pixelFormat = PixelFormat.RAW16) ∧
    (hCropPixels c2cfg.cropWidth c2buf.width % 2 = 0 ∧
     (cropAndCompress c2cfg id c2buf).pixelFormat = PixelFormat.RAW16 ∧
     (cropAndCompress c2cfg id c2buf).compressionType = CompressionType.BITNZPACK_2 ∧
     (cropAndCompress c2cfg id c2buf).isCompressed = true ∧
     (cropAndCompress c2cfg id c2buf).width =
       c2buf.width - 2 * hCropPixels c2cfg.cropWidth c2buf.width ∧
     (cropAndCompress c2cfg id c2buf).height =
       c2buf.height - 2 * vCropPixels c2cfg.cropHeight c2buf.height ∧
     (cropAndCompress c2cfg id c2buf).rowStride = 2 * (cropAndCompress c2cfg id c2buf).width ∧
     (cropAndCompress c2cfg id c2buf).validStart = 0 ∧
     (cropAndCompress c2cfg id c2buf).validEnd =
       ((ccRows (fun x y => formatRead c2buf.pixelFormat (byteAt c2buf.data) x y c2buf.rowStride)
           (hCropPixels c2cfg.cropWidth c2buf.width)
           ((c2buf.width - 2 * hCropPixels c2cfg.cropWidth c2buf.width) / 2)
           (vCropPixels c2cfg.cropHeight c2buf.height)
           (c2buf.height - vCropPixels c2cfg.cropHeight c2buf.height -
             vCropPixels c2cfg.cropHeight c2buf.height)).map (fun r => (id r).length)).sum) :=
  ⟨Or.inr (Or.inl rfl),
   c4_cropAndCompress_fields c2cfg id c2buf (Or.inr (Or.inl rfl))⟩

/-- C5: for every supported buffer, `cropAndBin` halves the cropped
dimensions (`width' = (width - 2·horizontalCrop)/2`, similarly for the
height), sets `isBinned`, and: with compression, `pixelFormat = RAW16`,
`BITNZPACK_2`, `isCompressed`, `rowStride = 2·width'`; without, the
format stays RAW10/RAW12 (RAW16 is repacked to RAW12) with the natural
packed stride `10·width'/8` or `12·width'/8`, uncompressed. -/
theorem c5_cropAndBin_fields (cfg : StreamerConfig) (enc : List Nat → List Nat)
    (b : RawImageBuffer)
    (hf : b.pixelFormat = PixelFormat.RAW10 ∨ b.pixelFormat = PixelFormat.RAW12 ∨
      b.pixelFormat = PixelFormat.RAW16) :
    (cropAndBin cfg enc b).width = (b.width - 2 * hCropPixels cfg.cropWidth b.width) / 2 ∧
    (cropAndBin cfg enc b).height = (b.height - 2 * vCropPixels cfg.cropHeight b.height) / 2 ∧
    (cropAndBin cfg enc b).isBinned = true ∧
    (cfg.enableCompression = true →
      (cropAndBin cfg enc b).pixelFormat = PixelFormat.RAW16 ∧
      (cropAndBin cfg enc b).compressionType = CompressionType.BITNZPACK_2 ∧
      (cropAndBin cfg enc b).isCompressed = true ∧
      (cropAndBin cfg enc b).rowStride = 2 * (cropAndBin cfg enc b).width) ∧
    (cfg.enableCompression = false →
      (cropAndBin cfg enc b).isCompressed = false ∧
      (cropAndBin cfg enc b).compressionType = CompressionType.UNCOMPRESSED ∧
      (cropAndBin cfg enc b).pixelFormat =
        (if b.pixelFormat = PixelFormat.RAW16 then PixelFormat.RAW12 else b.pixelFormat) ∧
      (cropAndBin cfg enc b).rowStride =
        (if b.pixelFormat = PixelFormat.RAW10
          then 10 * ((b.width - 2 * hCropPixels cfg.cropWidth b.width) / 2) / 8
          else 12 * ((b.width - 2 * hCropPixels cfg.cropWidth b.width) / 2) / 8)) := by
  cases hE : cfg.enableCompression <;>
    rcases hf with h | h | h <;>
      simp [cropAndBin, h, hE]

/-- C5 witness: a concrete RAW12 buffer, compression disabled. -/
theorem c5_cropAndBin_fields_witness :
    (c2buf.pixelFormat = PixelFormat.RAW10 ∨ c2buf.pixelFormat = PixelFormat.RAW12 ∨
      c2buf.pixelFormat = PixelFormat.RAW16) ∧
    ((cropAndBin c2cfg id c2buf).width =
       (c2buf.width - 2 * hCropPixels c2cfg.cropWidth c2buf.width) / 2 ∧
     (cropAndBin c2cfg id c2buf).height =
       (c2buf.height - 2 * vCropPixels c2cfg.cropHeight c2buf.height) / 2 ∧
     (cropAndBin c2cfg id c2buf).isBinned = true ∧
     (c2cfg.enableCompression = true →
       (cropAndBin c2cfg id c2buf).pixelFormat = PixelFormat.RAW16 ∧
       (cropAndBin c2cfg id c2buf).compressionType = CompressionType.BITNZPACK_2 ∧
       (cropAndBin c2cfg id c2buf).isCompressed = true ∧
       (cropAndBin c2cfg id c2buf).rowStride = 2 * (cropAndBin c2cfg id c2buf).width) ∧
     (c2cfg.enableCompression = false →
       (cropAndBin c2cfg id c2buf).isCompressed = false ∧
       (cropAndBin c2cfg id c2buf).compressionType = CompressionType.UNCOMPRESSED ∧
       (cropAndBin c2cfg id c2buf).pixelFormat =
         (if c2buf.pixelFormat = PixelFormat.RAW16 then PixelFormat.RAW12
           else c2buf.pixelFormat) ∧
       (cropAndBin c2cfg id c2buf).rowStride =
         (if c2buf.pixelFormat = PixelFormat.RAW10
           then 10 * ((c2buf.width - 2 * hCropPixels c2cfg.cropWidth c2buf.width) / 2) / 8
           else 12 * ((c2buf.width - 2 * hCropPixels c2cfg.cropWidth c2buf.width) / 2) / 8))) :=
  ⟨Or.inr (Or.inl rfl),
   c5_cropAndBin_fields c2cfg id c2buf (Or.inr (Or.inl rfl))⟩

/-- C6: a buffer whose pixel format is outside {RAW10, RAW12, RAW16} is
left untouched by all three transforms, and the `doProcess` iteration
still forwards it to the ready queue. -/
theorem c6_unsupported_format_untouched (cfg : StreamerConfig)
    (enc : List Nat → List Nat) (ready : List RawImageBuffer) (b : RawImageBuffer)
    (hf : ¬(b.pixelFormat = PixelFormat.RAW10 ∨ b.pixelFormat = PixelFormat.RAW12 ∨
      b.pixelFormat = PixelFormat.RAW16)) :
    (crop cfg b).1 = b ∧ cropAndCompress cfg enc b = b ∧ cropAndBin cfg enc b = b ∧
    processBuffer cfg enc b = b ∧ doProcessStep cfg enc ready b = ready ++ [b] := by
  have h : b.pixelFormat = PixelFormat.UNSUPPORTED := by
    cases hfmt : b.pixelFormat <;> simp [hfmt] at hf ⊢
  have hcrop : (crop cfg b).1 = b := by
    unfold crop
    split
    · rfl
    · simp [h]
  have hcc : cropAndCompress cfg enc b = b := by simp [cropAndCompress, h]
  have hcb : cropAndBin cfg enc b = b := by simp [cropAndBin, h]
  have hpb : processBuffer cfg enc b = b := by
    unfold processBuffer
    cases cfg.bin <;> cases hE : cfg.enableCompression <;> simp [hE, hcrop, hcc, hcb]
  exact ⟨hcrop, hcc, hcb, hpb, by simp [doProcessStep, hpb]⟩

/-- C6 witness: a concrete unsupported-format buffer. -/
theorem c6_unsupported_format_untouched_witness :
    ¬({ c2buf with pixelFormat := PixelFormat.UNSUPPORTED }.pixelFormat = PixelFormat.RAW10 ∨
      { c2buf with pixelFormat := PixelFormat.UNSUPPORTED }.pixelFormat = PixelFormat.RAW12 ∨
      { c2buf with pixelFormat := PixelFormat.UNSUPPORTED }.pixelFormat = PixelFormat.RAW16) ∧
    ((crop c2cfg { c2buf with pixelFormat := PixelFormat.UNSUPPORTED }).1 =
       { c2buf with pixelFormat := PixelFormat.UNSUPPORTED } ∧
     cropAndCompress c2cfg id { c2buf with pixelFormat := PixelFormat.UNSUPPORTED } =
       { c2buf with pixelFormat := PixelFormat.UNSUPPORTED } ∧
     cropAndBin c2cfg id { c2buf with pixelFormat := PixelFormat.UNSUPPORTED } =
       { c2buf with pixelFormat := PixelFormat.UNSUPPORTED } ∧
     processBuffer c2cfg id { c2buf with pixelFormat := PixelFormat.UNSUPPORTED } =
       { c2buf with pixelFormat := PixelFormat.UNSUPPORTED } ∧
     doProcessStep c2cfg id [] { c2buf with pixelFormat := PixelFormat.UNSUPPORTED } =
       [] ++ [{ c2buf with pixelFormat := PixelFormat.UNSUPPORTED }]) :=
  ⟨by decide,
   c6_unsupported_format_untouched c2cfg id []
     { c2buf with pixelFormat := PixelFormat.UNSUPPORTED } (by decide)⟩

/-- A configuration with `running = true` (and `bin = false`). -/
def c7cfg : StreamerConfig :=
  { running := true, cropWidth := 1, cropHeight := 2, bin := false,
    enableCompression := true }

/-- C7 counterexample: `setBin` called while `running = true` changes
`bin` — the setter has no `!mRunning` guard, so the claim that every
`setBin` call made while running leaves the field unchanged is false. -/
theorem c7_setBin_mutates_while_running :
    c7cfg.running = true ∧ (setBin c7cfg true).bin ≠ c7cfg.bin := by
  decide

/-- C7 (amended): while running, `setCropAmount` is a no-op (`cropWidth`
and `cropHeight` are mutated only while not running), but `setBin`
unconditionally assigns `bin`, running or not. -/
theorem c7_config_mutation (s : StreamerConfig) (w h : Nat) (v : Bool)
    (hr : s.running = true) :
    setCropAmount s w h = s ∧ setBin s v = { s with bin := v } := by
  simp [setCropAmount, setBin, hr]

/-- C7 witness: the amended statement at a concrete running state. -/
theorem c7_config_mutation_witness :
    c7cfg.running = true ∧
    (setCropAmount c7cfg 5 6 = c7cfg ∧ setBin c7cfg true = { c7cfg with bin := true }) :=
  ⟨rfl, c7_config_mutation c7cfg 5 6 true rfl⟩

/-- C8: every RAW16 buffer handed to `crop` is packed — the zero-crop
early return excludes RAW16 — and comes back as RAW12 with the natural
stride `12·croppedWidth/8`, uncompressed; the data region is locked
(the operation runs) even when both crop percentages are zero. -/
theorem c8_raw16_always_cropped (cfg : StreamerConfig) (b : RawImageBuffer)
    (hf : b.pixelFormat = PixelFormat.RAW16) :
    (crop cfg b).2 = true ∧
    (crop cfg b).1.pixelFormat = PixelFormat.RAW12 ∧
    (crop cfg b).1.rowStride =
      12 * (b.width - 2 * hCropPixels cfg.cropWidth b.width) / 8 ∧
    (crop cfg b).1.width = b.width - 2 * hCropPixels cfg.cropWidth b.width ∧
    (crop cfg b).1.compressionType = CompressionType.UNCOMPRESSED ∧
    (crop cfg b).1.isCompressed = false := by
  simp [crop, hf, Nat.mul_comm]

/-- The `cropWidth = cropHeight = 0` configuration with binning and
compression disabled. -/
def zeroCropCfg : StreamerConfig :=
  { running := true, cropWidth := 0, cropHeight := 0, bin := false,
    enableCompression := false }

/-- An 8×8 RAW16 buffer holding `c3data`. -/
def raw16buf : RawImageBuffer :=
  { data := c3data, validStart := 0, validEnd := 128, width := 8, height := 8,
    rowStride := 16, pixelFormat := .RAW16, compressionType := .UNCOMPRESSED,
    isBinned := false, isCompressed := false, metadata := 0 }

/-- C8 witness: a RAW16 buffer with both crop percentages zero is still
cropped and packed to RAW12. -/
theorem c8_raw16_always_cropped_witness :
    raw16buf.pixelFormat = PixelFormat.RAW16 ∧
    ((crop zeroCropCfg raw16buf).2 = true ∧
     (crop zeroCropCfg raw16buf).1.pixelFormat = PixelFormat.RAW12 ∧
     (crop zeroCropCfg raw16buf).1.rowStride =
       12 * (raw16buf.width - 2 * hCropPixels zeroCropCfg.cropWidth raw16buf.width) / 8 ∧
     (crop zeroCropCfg raw16buf).1.width =
       raw16buf.width - 2 * hCropPixels zeroCropCfg.cropWidth raw16buf.width ∧
     (crop zeroCropCfg raw16buf).1.compressionType = CompressionType.UNCOMPRESSED ∧
     (crop zeroCropCfg raw16buf).1.isCompressed = false) :=
  ⟨rfl, c8_raw16_always_cropped zeroCropCfg raw16buf rfl⟩

/-- C9: frame conservation fails under an admissible schedule.  With one
submitted frame, the transform worker dequeues it; `stop()` clears
`running`; the writer leaves its main loop, finds both queues empty,
commits and exits; only then does the worker finish `processBuffer` and
enqueue the frame on the ready queue.  The run ends with the writer
committed, one frame through the transform stage, `writtenFrames = 0`,
and the frame stranded on the ready queue. -/
theorem c9_frame_lost_at_stop :
    ∃ s : PipeState, Relation.ReflTransGen PipeStep (initPipe [0]) s ∧
      s.phase = WriterPhase.committed ∧ s.workerHeld = none ∧
      s.transformed = 1 ∧ s.written = 0 ∧ s.ready = [0] := by
  refine ⟨{ unproc := [], ready := [0], running := false, workerHeld := none,
            transformed := 1, written := 0, phase := WriterPhase.committed },
          ?_, rfl, rfl, rfl, rfl, rfl⟩
  apply Relation.ReflTransGen.head (PipeStep.workerTake _ 0 [] rfl rfl rfl)
  apply Relation.ReflTransGen.head (PipeStep.stopFlag _)
  apply Relation.ReflTransGen.head (PipeStep.writerExitMain _ rfl rfl)
  apply Relation.ReflTransGen.head (PipeStep.writerReadyDone _ rfl rfl)
  apply Relation.ReflTransGen.head (PipeStep.writerCommit _ rfl rfl)
  apply Relation.ReflTransGen.head (PipeStep.workerFinish _ 0 rfl)
  exact Relation.ReflTransGen.refl

/-- C10: with both crop percentages zero and a RAW10/RAW12 buffer
(binning and compression disabled, so `processBuffer` dispatches to
`crop`), `crop` returns before locking and the buffer — `validRange`
included — is unchanged. -/
theorem c10_zero_crop_noop (cfg : StreamerConfig) (enc : List Nat → List Nat)
    (b : RawImageBuffer)
    (hw : cfg.cropWidth = 0) (hh : cfg.cropHeight = 0)
    (hf : b.pixelFormat = PixelFormat.RAW10 ∨ b.pixelFormat = PixelFormat.RAW12)
    (hbin : cfg.bin = false) (hcomp : cfg.enableCompression = false) :
    crop cfg b = (b, false) ∧ processBuffer cfg enc b = b := by
  have hne : b.pixelFormat ≠ PixelFormat.RAW16 := by
    rcases hf with h | h <;> simp [h]
  have hcrop : crop cfg b = (b, false) := by
    simp [crop, hw, hh, hne]
  exact ⟨hcrop, by simp [processBuffer, hbin, hcomp, hcrop]⟩

/-- C10 witness: a concrete RAW12 buffer under the zero-crop
configuration. -/
theorem c10_zero_crop_noop_witness :
    (zeroCropCfg.cropWidth = 0 ∧ zeroCropCfg.cropHeight = 0 ∧
     (c2buf.pixelFormat = PixelFormat.RAW10 ∨ c2buf.pixelFormat = PixelFormat.RAW12) ∧
     zeroCropCfg.bin = false ∧ zeroCropCfg.enableCompression = false) ∧
    (crop zeroCropCfg c2buf = (c2buf, false) ∧ processBuffer zeroCropCfg id c2buf = c2buf) :=
  ⟨⟨rfl, rfl, Or.inr rfl, rfl, rfl⟩,
   c10_zero_crop_noop zeroCropCfg id c2buf rfl rfl (Or.inr rfl) rfl rfl⟩

end MotionCam
